import Mathlib

/-!
Verification development for the wakis repository (structured-grid FIT/FDTD
electromagnetic field solver driver scripts).

The sources under verification are the three driver scripts
003_MPI_wakefield_simulation.py, script_cube_cav_fit.py and
script_noeb_fit.py. The solver library they import (solverFIT3D, solver3D,
grid3D, conductors3d, field, wakis.sources) is not part of the sources, so
those parts are modelled from the specification document, as marked in the
doc comments below. Machine floats are modelled by exact rationals.
-/

/- ===== Embedding of the Python numeric semantics used by the scripts ===== -/

/-- Python runtime errors raised by the expressions appearing in the scripts. -/
inductive PyErr where
  | typeError
  | zeroDivisionError
deriving DecidableEq

/-- A Python number: either an int or a float (floats modelled as exact rationals). -/
inductive PyNum where
  | int : ℤ → PyNum
  | float : ℚ → PyNum
deriving DecidableEq

def PyNum.toQ : PyNum → ℚ
  | .int n => (n : ℚ)
  | .float q => q

def PyNum.isFloat : PyNum → Bool
  | .int _ => false
  | .float _ => true

/-- Python addition: int + int is an int, otherwise the result is a float. -/
def pyAdd (a b : PyNum) : PyNum :=
  match a, b with
  | .int m, .int n => .int (m + n)
  | _, _ => .float (a.toQ + b.toQ)

/-- Python subtraction: int - int is an int, otherwise the result is a float. -/
def pySub (a b : PyNum) : PyNum :=
  match a, b with
  | .int m, .int n => .int (m - n)
  | _, _ => .float (a.toQ - b.toQ)

/-- Python multiplication: int * int is an int, otherwise the result is a float. -/
def pyMul (a b : PyNum) : PyNum :=
  match a, b with
  | .int m, .int n => .int (m * n)
  | _, _ => .float (a.toQ * b.toQ)

/-- Python true division: always produces a float, and raises
ZeroDivisionError on a zero divisor (for ints and floats alike). -/
def pyTrueDiv (a b : PyNum) : Except PyErr PyNum :=
  if b.toQ = 0 then .error .zeroDivisionError else .ok (.float (a.toQ / b.toQ))

/-- Python range(x): a list of naturals for an int argument (empty when the
argument is not positive), a TypeError for a float argument. -/
def pyRange : PyNum → Except PyErr (List ℕ)
  | .int n => .ok (List.range n.toNat)
  | .float _ => .error .typeError

/-- Python a % b on the nonnegative ints of the scripts: raises
ZeroDivisionError when b = 0. -/
def pyMod (a b : ℕ) : Except PyErr ℕ :=
  if b = 0 then .error .zeroDivisionError else .ok (a % b)

/-- Python a // b on the nonnegative ints of the scripts: raises
ZeroDivisionError when b = 0. -/
def pyFloorDiv (a b : ℕ) : Except PyErr ℕ :=
  if b = 0 then .error .zeroDivisionError else .ok (a / b)

/- ===== 003_MPI_wakefield_simulation.py: domain decomposition (lines 44-79) ===== -/

/-- The nominal longitudinal cell count of the MPI script (line 47). -/
def mpiNz : ℕ := 141

/-- Line 50: Nz += Nz % (size-1); the adjusted global longitudinal cell count. -/
def mpiNzAdj (size : ℕ) : ℕ := mpiNz + mpiNz % (size - 1)

/-- Line 54: Nz_mpi = Nz // (size-1); the per-rank local cell count. -/
def mpiNzLoc (size : ℕ) : ℕ := mpiNzAdj size / (size - 1)

/-- Line 51: dz = (zmax - zmin) / Nz, with the adjusted Nz. -/
def mpiDz (zmin zmax : ℚ) (size : ℕ) : ℚ := (zmax - zmin) / (mpiNzAdj size : ℚ)

/-- Line 55: zmin_mpi = (rank-1) * Nz_mpi * dz. -/
def mpiZminLoc (zmin zmax : ℚ) (size rank : ℕ) : ℚ :=
  ((rank : ℚ) - 1) * (mpiNzLoc size : ℚ) * mpiDz zmin zmax size

/-- Line 56: zmax_mpi = rank * Nz_mpi * dz. -/
def mpiZmaxLoc (zmin zmax : ℚ) (size rank : ℕ) : ℚ :=
  (rank : ℚ) * (mpiNzLoc size : ℚ) * mpiDz zmin zmax size

/-- The grid constructor arguments produced by the domain setup
(GridFIT3D calls, lines 61-79): bounding box and cell counts. -/
structure MpiGridArgs where
  xmin : ℚ
  xmax : ℚ
  ymin : ℚ
  ymax : ℚ
  zmin : ℚ
  zmax : ℚ
  Nx : ℕ
  Ny : ℕ
  Nz : ℕ
deriving DecidableEq

/-- Lines 44-79 of the MPI script as a fallible computation: the Nz
adjustment (line 50, Python percent operator), dz, the local slice range
(lines 54-56) and then the GridFIT3D arguments for the given rank
(rank 0 receives the full domain, other ranks their local slice).
Any Python arithmetic error aborts the setup before a grid is built. -/
def mpiDomainSetup (xmin xmax ymin ymax zmin zmax : ℚ) (size rank : ℕ) :
    Except PyErr MpiGridArgs := do
  let r ← pyMod mpiNz (size - 1)
  let nz := mpiNz + r
  let dz := (zmax - zmin) / (nz : ℚ)
  let nzLoc ← pyFloorDiv nz (size - 1)
  let zminLoc := ((rank : ℚ) - 1) * (nzLoc : ℚ) * dz
  let zmaxLoc := (rank : ℚ) * (nzLoc : ℚ) * dz
  if rank = 0 then
    pure ⟨xmin, xmax, ymin, ymax, zmin, zmax, 80, 80, nz⟩
  else
    pure ⟨xmin, xmax, ymin, ymax, zminLoc, zmaxLoc, 80, 80, nzLoc⟩

/- ===== 003_MPI_wakefield_simulation.py: the time-stepping loop (lines 151-160) ===== -/

/-- One operation performed (or, for ghostExchange, performable) inside the
body of the time-stepping loop of the MPI script. The beamUpdateMpi
constructor records the explicit time argument passed to the call. -/
inductive MpiLoopOp where
  | beamUpdateMpi : ℚ → MpiLoopOp
  | oneStep : MpiLoopOp
  | ghostExchange : MpiLoopOp
deriving DecidableEq

/-- The body of the time loop for iteration n (lines 154-160): a call
beam.update_mpi(solver, n*solver.dt, zmin, z) followed by solver.one_step().
The commented-out communication marker at line 160 is not executable code. -/
def mpiLoopBody (dt : ℚ) (n : ℕ) : List MpiLoopOp :=
  [MpiLoopOp.beamUpdateMpi ((n : ℚ) * dt), MpiLoopOp.oneStep]

/-- Line 151: Nt = 1/solver.dt * (wake.wakelength + wake.ti*wake.v +
(solver.z.max()-solver.z.min()))/wake.v, evaluated with Python numeric
semantics. -/
def ntExpr (dtP wl ti v zmaxv zminv : PyNum) : Except PyErr PyNum := do
  let a ← pyTrueDiv (.int 1) dtP
  pyTrueDiv (pyMul a (pyAdd (pyAdd wl (pyMul ti v)) (pySub zmaxv zminv))) v

/-- Lines 151-160: compute Nt, evaluate range(Nt), and concatenate the per-
iteration loop bodies. A Python error in Nt or range aborts with no
iteration executed. -/
def mpiTimeLoopOps (dtP wl ti v zmaxv zminv : PyNum) (dt : ℚ) :
    Except PyErr (List MpiLoopOp) := do
  let nt ← ntExpr dtP wl ti v zmaxv zminv
  let ns ← pyRange nt
  pure (ns.flatMap (mpiLoopBody dt))

/- ===== Spec-modelled grid geometry and conductor model ===== -/

/-- Modelled from the spec: grid3D.py (class Grid3D) is not under src/.
Per-axis cell counts and cell sizes of the structured mesh (spec section 3). -/
structure GridParams where
  Nx : ℕ
  Ny : ℕ
  Nz : ℕ
  dx : ℚ
  dy : ℚ
  dz : ℚ

/-- Modelled from the spec: conductors3d.py is not under src/. An embedded
conductor assembly is represented by the fraction of each primary face left
outside the conductor (spec section 3: face areas may be partially cut). -/
structure Conductor where
  cutYZ : ℕ → ℕ → ℕ → ℚ
  cutZX : ℕ → ℕ → ℕ → ℚ
  cutXY : ℕ → ℕ → ℕ → ℚ

/-- Modelled from the spec: conductors3d.noConductor is not under src/. With
no embedded solids nothing is cut, so every face keeps its full area. -/
def noConductor : Conductor :=
  ⟨fun _ _ _ => 1, fun _ _ _ => 1, fun _ _ _ => 1⟩

/-- Geometric update coefficients of the leapfrog step: primary face areas
(used by the H update) and dual, tilde-grid face areas (used by the E
update), per orientation. -/
structure GeomCoeffs where
  gp : GridParams
  Syz : ℕ → ℕ → ℕ → ℚ
  Szx : ℕ → ℕ → ℕ → ℚ
  Sxy : ℕ → ℕ → ℕ → ℚ
  tSyz : ℕ → ℕ → ℕ → ℚ
  tSzx : ℕ → ℕ → ℕ → ℚ
  tSxy : ℕ → ℕ → ℕ → ℚ

/-- Modelled from the spec: solverFIT3D.py is not under src/. The FIT
variant resolves its coefficients from the fractional cut areas of the
primary grid and of the half-cell-shifted tilde grid (spec section 4.2). -/
def fitCoeffs (gp : GridParams) (cond tcond : Conductor) : GeomCoeffs where
  gp := gp
  Syz := fun i j k => cond.cutYZ i j k * (gp.dy * gp.dz)
  Szx := fun i j k => cond.cutZX i j k * (gp.dz * gp.dx)
  Sxy := fun i j k => cond.cutXY i j k * (gp.dx * gp.dy)
  tSyz := fun i j k => tcond.cutYZ i j k * (gp.dy * gp.dz)
  tSzx := fun i j k => tcond.cutZX i j k * (gp.dz * gp.dx)
  tSxy := fun i j k => tcond.cutXY i j k * (gp.dx * gp.dy)

/-- Modelled from the spec: solver3D.py (class EMSolver3D) is not under
src/. The FDTD variant assumes every face area equals the nominal uncut
area (spec section 4.2). -/
def fdtdCoeffs (gp : GridParams) : GeomCoeffs where
  gp := gp
  Syz := fun _ _ _ => gp.dy * gp.dz
  Szx := fun _ _ _ => gp.dz * gp.dx
  Sxy := fun _ _ _ => gp.dx * gp.dy
  tSyz := fun _ _ _ => gp.dy * gp.dz
  tSzx := fun _ _ _ => gp.dz * gp.dx
  tSxy := fun _ _ _ => gp.dx * gp.dy

/- ===== Spec-modelled field state and leapfrog step ===== -/

/-- Modelled from the spec: the field state owned by the solver (spec
section 3): staggered E, H and current density J arrays plus the elapsed
time, with one scalar per component at each grid index. Fields are total
functions on indices; entries outside the staggered ranges stay zero
throughout the scenarios considered here. -/
structure EMState where
  Ex : ℕ → ℕ → ℕ → ℚ
  Ey : ℕ → ℕ → ℕ → ℚ
  Ez : ℕ → ℕ → ℕ → ℚ
  Hx : ℕ → ℕ → ℕ → ℚ
  Hy : ℕ → ℕ → ℕ → ℚ
  Hz : ℕ → ℕ → ℕ → ℚ
  Jx : ℕ → ℕ → ℕ → ℚ
  Jy : ℕ → ℕ → ℕ → ℚ
  Jz : ℕ → ℕ → ℕ → ℚ
  time : ℚ

/-- H update, x component: the circulation of E around the yz face at
(i,j,k) divided by the (possibly cut) face area, scaled by -c*dt
(normalized leapfrog H update of spec section 4.2, step 1). -/
def stepHx (geo : GeomCoeffs) (c dt : ℚ) (s : EMState) : ℕ → ℕ → ℕ → ℚ :=
  fun i j k => s.Hx i j k - c * dt *
    (s.Ey i j k * geo.gp.dy + s.Ez i (j+1) k * geo.gp.dz
      - s.Ey i j (k+1) * geo.gp.dy - s.Ez i j k * geo.gp.dz) / geo.Syz i j k

/-- H update, y component: circulation of E around the zx face at (i,j,k)
divided by the face area, scaled by -c*dt. -/
def stepHy (geo : GeomCoeffs) (c dt : ℚ) (s : EMState) : ℕ → ℕ → ℕ → ℚ :=
  fun i j k => s.Hy i j k - c * dt *
    (s.Ez i j k * geo.gp.dz + s.Ex i j (k+1) * geo.gp.dx
      - s.Ez (i+1) j k * geo.gp.dz - s.Ex i j k * geo.gp.dx) / geo.Szx i j k

/-- H update, z component: circulation of E around the xy face at (i,j,k)
divided by the face area, scaled by -c*dt. -/
def stepHz (geo : GeomCoeffs) (c dt : ℚ) (s : EMState) : ℕ → ℕ → ℕ → ℚ :=
  fun i j k => s.Hz i j k - c * dt *
    (s.Ex i j k * geo.gp.dx + s.Ey (i+1) j k * geo.gp.dy
      - s.Ex i (j+1) k * geo.gp.dx - s.Ey i j k * geo.gp.dy) / geo.Sxy i j k

/-- PEC mask for Ex: tangential E is forced to zero on the y and z domain
boundaries (spec section 4.2, step 2). -/
def pecMaskEx (gp : GridParams) (i j k : ℕ) : ℚ :=
  if j = 0 ∨ j = gp.Ny ∨ k = 0 ∨ k = gp.Nz then 0 else
  if i ≥ gp.Nx then 0 else 1

/-- PEC mask for Ey: tangential E is forced to zero on the x and z domain
boundaries. -/
def pecMaskEy (gp : GridParams) (i j k : ℕ) : ℚ :=
  if i = 0 ∨ i = gp.Nx ∨ k = 0 ∨ k = gp.Nz then 0 else
  if j ≥ gp.Ny then 0 else 1

/-- PEC mask for Ez: tangential E is forced to zero on the x and y domain
boundaries. -/
def pecMaskEz (gp : GridParams) (i j k : ℕ) : ℚ :=
  if i = 0 ∨ i = gp.Nx ∨ j = 0 ∨ j = gp.Ny then 0 else
  if k ≥ gp.Nz then 0 else 1

/-- E update, x component, reading the already-updated H (leapfrog): dual
circulation of H around the dual yz face divided by the dual face area,
scaled by c*dt, minus the injected current term, under the PEC mask
(spec section 4.2, steps 2-3; vacuum, so no conduction loss term). -/
def stepEx (geo : GeomCoeffs) (c dt : ℚ) (s : EMState) : ℕ → ℕ → ℕ → ℚ :=
  fun i j k => pecMaskEx geo.gp i j k *
    (s.Ex i j k + c * dt *
      (s.Hy i j (k-1) * geo.gp.dy + s.Hz i j k * geo.gp.dz
        - s.Hy i j k * geo.gp.dy - s.Hz i (j-1) k * geo.gp.dz) / geo.tSyz i j k
      - c * dt * s.Jx i j k)

/-- E update, y component, reading the already-updated H. -/
def stepEy (geo : GeomCoeffs) (c dt : ℚ) (s : EMState) : ℕ → ℕ → ℕ → ℚ :=
  fun i j k => pecMaskEy geo.gp i j k *
    (s.Ey i j k + c * dt *
      (s.Hz (i-1) j k * geo.gp.dz + s.Hx i j k * geo.gp.dx
        - s.Hz i j k * geo.gp.dz - s.Hx i j (k-1) * geo.gp.dx) / geo.tSzx i j k
      - c * dt * s.Jy i j k)

/-- E update, z component, reading the already-updated H. -/
def stepEz (geo : GeomCoeffs) (c dt : ℚ) (s : EMState) : ℕ → ℕ → ℕ → ℚ :=
  fun i j k => pecMaskEz geo.gp i j k *
    (s.Ez i j k + c * dt *
      (s.Hy i j k * geo.gp.dy + s.Hx i (j-1) k * geo.gp.dx
        - s.Hy (i-1) j k * geo.gp.dy - s.Hx i j k * geo.gp.dx) / geo.tSxy i j k
      - c * dt * s.Jz i j k)

/-- Modelled from the spec: one_step of the solvers (solverFIT3D.py and
solver3D.py are not under src/). One explicit leapfrog pair per spec
section 4.2: advance H from the curl of E over the (possibly cut) face
areas, apply the PEC boundary condition, advance E from the curl of the
updated H over the dual face areas minus the injected current, and advance
the time accumulator by dt. Deterministic, and the sole mutator of the
field arrays besides source injection and seeding. -/
def oneStep (geo : GeomCoeffs) (c dt : ℚ) (s : EMState) : EMState :=
  let sH : EMState :=
    { s with
      Hx := stepHx geo c dt s
      Hy := stepHy geo c dt s
      Hz := stepHz geo c dt s }
  { sH with
    Ex := stepEx geo c dt sH
    Ey := stepEy geo c dt sH
    Ez := stepEz geo c dt sH
    time := s.time + dt }

/-- n repeated calls of one_step. -/
def stepN (geo : GeomCoeffs) (c dt : ℚ) : ℕ → EMState → EMState
  | 0, s => s
  | n + 1, s => stepN geo c dt n (oneStep geo c dt s)

/-- The all-zero state seeded with a single Ez excitation of value a at
cell (i0, j0, k0), at time zero (the seeding done by both comparison
scripts before stepping). -/
def singleEzInit (i0 j0 k0 : ℕ) (a : ℚ) : EMState where
  Ex := fun _ _ _ => 0
  Ey := fun _ _ _ => 0
  Ez := fun i j k => if i = i0 ∧ j = j0 ∧ k = k0 then a else 0
  Hx := fun _ _ _ => 0
  Hy := fun _ _ _ => 0
  Hz := fun _ _ _ => 0
  Jx := fun _ _ _ => 0
  Jy := fun _ _ _ => 0
  Jz := fun _ _ _ => 0
  time := 0

/- ===== script_cube_cav_fit.py: the 25x25x25 vacuum cube scenario ===== -/

/-- Cell size of the cube scripts: dx = L / Nx with L = 1 and Nx = 25
(script_cube_cav_fit.py lines 22-33). -/
def cubeDx : ℚ := 1 / 25

/-- dy = L / Ny = 1 / 25. -/
def cubeDy : ℚ := 1 / 25

/-- dz = L / Nz = 1 / 25. -/
def cubeDz : ℚ := 1 / 25

/-- The uniform 25x25x25 grid parameters of script_cube_cav_fit.py. -/
def cubeGP : GridParams := ⟨25, 25, 25, cubeDx, cubeDy, cubeDz⟩

/-- The FIT update coefficients of the cube scenario: grid and tilde grid
both built over noConductor (script_cube_cav_fit.py lines 42-50). -/
def cubeCoeffs : GeomCoeffs := fitCoeffs cubeGP noConductor noConductor

/-- The state after the single one_step call of script_cube_cav_fit.py
(line 64), starting from the Ez excitation of value a at the center cell
(int(Nx/2), int(Ny/2), int(Nz/2)) = (12, 12, 12) set at line 58. -/
def cubeAfter (c dt a : ℚ) : EMState :=
  oneStep cubeCoeffs c dt (singleEzInit 12 12 12 a)

/-- The address of one scalar H entry: an H component (yz, zx or xy face
orientation) together with a grid coordinate. -/
inductive FaceIx where
  | hx : ℕ → ℕ → ℕ → FaceIx
  | hy : ℕ → ℕ → ℕ → FaceIx
  | hz : ℕ → ℕ → ℕ → FaceIx
deriving DecidableEq

/-- One scalar H entry of the cube scenario after one step. -/
def cubeHcomp (c dt a : ℚ) : FaceIx → ℚ
  | .hx i j k => (cubeAfter c dt a).Hx i j k
  | .hy i j k => (cubeAfter c dt a).Hy i j k
  | .hz i j k => (cubeAfter c dt a).Hz i j k

/-- Formalization of the claimed one-step pattern: there is a set of six
faces carrying H of magnitude (c * dt / cell size) * a, and H vanishes at
every other face. -/
def cubeSixFacesClaim (c dt a : ℚ) : Prop :=
  ∃ S : Finset FaceIx, S.card = 6 ∧
    (∀ p ∈ S, |cubeHcomp c dt a p| = c * dt / cubeDx * a) ∧
    (∀ p ∉ S, cubeHcomp c dt a p = 0)

/-- The four faces adjacent to the excited Ez edge: the two yz faces (Hx)
and the two zx faces (Hy) sharing that edge. -/
def cubeFourFaces : Finset FaceIx :=
  {FaceIx.hx 12 11 12, FaceIx.hx 12 12 12, FaceIx.hy 11 12 12, FaceIx.hy 12 12 12}

/-- numpy ones_like: an array of the same shape filled with ones. -/
def onesLike (_ : ℕ → ℕ → ℕ → ℚ) : ℕ → ℕ → ℕ → ℚ := fun _ _ _ => 1

/-- Line 53 of script_cube_cav_fit.py: gridFDTD.Sxy overwritten by
ones_like(gridFDTD.Sxy) * dx * dy, from the face areas S0 the grid was
built with. -/
def gridFDTD_Sxy (S0 : ℕ → ℕ → ℕ → ℚ) : ℕ → ℕ → ℕ → ℚ :=
  fun i j k => onesLike S0 i j k * cubeDx * cubeDy

/-- Line 54: gridFDTD.Szx overwritten by ones_like(gridFDTD.Szx) * dx * dz. -/
def gridFDTD_Szx (S0 : ℕ → ℕ → ℕ → ℚ) : ℕ → ℕ → ℕ → ℚ :=
  fun i j k => onesLike S0 i j k * cubeDx * cubeDz

/-- Line 55: gridFDTD.Syz overwritten by ones_like(gridFDTD.Syz) * dz * dy. -/
def gridFDTD_Syz (S0 : ℕ → ℕ → ℕ → ℚ) : ℕ → ℕ → ℕ → ℚ :=
  fun i j k => onesLike S0 i j k * cubeDz * cubeDy

/- ===== script_noeb_fit.py: primary and tilde grid construction ===== -/

/-- The constructor arguments of a Grid3D call (grid3D.py itself is not
under src/; only the argument tuple matters here). -/
structure Grid3DArgs where
  xmin : ℚ
  xmax : ℚ
  ymin : ℚ
  ymax : ℚ
  zmin : ℚ
  zmax : ℚ
  Nx : ℕ
  Ny : ℕ
  Nz : ℕ
  conductor : Conductor
  solType : String

/-- script_noeb_fit.py line 35: xmin = -Lx/2 + dx/2 with Lx = 1, dx = 1/25. -/
def noebXmin : ℚ := -(1 / 2) + cubeDx / 2

/-- Line 36: xmax = Lx/2 + dx/2. -/
def noebXmax : ℚ := 1 / 2 + cubeDx / 2

/-- Line 37: ymin = -Ly/2 + dx/2 (the script uses dx here; dx = dy). -/
def noebYmin : ℚ := -(1 / 2) + cubeDx / 2

/-- Line 38: ymax = Ly/2 + dx/2. -/
def noebYmax : ℚ := 1 / 2 + cubeDx / 2

/-- Line 39: zmin = -Lz/2 + dx/2. -/
def noebZmin : ℚ := -(1 / 2) + cubeDx / 2

/-- Line 40: zmax = Lz/2 + dx/2. -/
def noebZmax : ℚ := 1 / 2 + cubeDx / 2

/-- Line 46: the primary FIT grid of script_noeb_fit.py. -/
def noebGridFIT : Grid3DArgs :=
  ⟨noebXmin, noebXmax, noebYmin, noebYmax, noebZmin, noebZmax,
    25, 25, 25, noConductor, "FIT"⟩

/-- Line 47: the tilde grid, every bound shifted by half a cell
(xmin + dx/2, ..., zmax + dz/2), same cell counts and conductors. -/
def noebTGridFIT : Grid3DArgs :=
  ⟨noebXmin + cubeDx / 2, noebXmax + cubeDx / 2,
    noebYmin + cubeDy / 2, noebYmax + cubeDy / 2,
    noebZmin + cubeDz / 2, noebZmax + cubeDz / 2,
    25, 25, 25, noConductor, "FIT"⟩

/-- Line 49: the FIT solver is handed the primary grid and the tilde grid
at construction (SolverFIT3D(gridFIT, tgridFIT)). -/
structure SolverFIT3DArgs where
  grid : Grid3DArgs
  tgrid : Grid3DArgs

/-- The solver construction of script_noeb_fit.py. -/
def noebSolverArgs : SolverFIT3DArgs := ⟨noebGridFIT, noebTGridFIT⟩

/- ===== Spec-modelled beam source (wakis.sources.Beam) ===== -/

/-- The constructor parameters of the Beam source
(003_MPI_wakefield_simulation.py line 148: Beam(q, sigmaz, beta, xsource,
ysource)). -/
structure BeamParams where
  q : ℝ
  sigmaz : ℝ
  beta : ℝ
  xsource : ℝ
  ysource : ℝ

/-- Solver-internal mutable bookkeeping a source must not read (spec
section 4.4: callable independently of any global counters beyond the time
value it is given). -/
structure SolverInternalState where
  stepCounter : ℕ
  elapsedTime : ℝ

/-- The speed of light constant, as a real. -/
noncomputable def cLightR : ℝ := 299792458

/-- The default injection time offset tinj = 8.53 * sigmaz / c_light
(003_MPI_wakefield_simulation.py line 95). -/
noncomputable def beamTinj (p : BeamParams) : ℝ := 8.53 * p.sigmaz / cLightR

/-- Modelled from the spec: wakis.sources.Beam is not under src/. The
Gaussian longitudinal line density of the moving bunch at absolute time t
and longitudinal position z (spec section 4.4). -/
noncomputable def beamLineDensity (p : BeamParams) (t z : ℝ) : ℝ :=
  p.q / (Real.sqrt (2 * Real.pi) * p.sigmaz) *
    Real.exp (-((z - p.beta * cLightR * (t - beamTinj p)) ^ 2) / (2 * p.sigmaz ^ 2))

/-- Modelled from the spec: Beam.update_mpi is not under src/. The injected
longitudinal current at each local grid plane, computed from the explicit
time argument and the constructor parameters only; the solver-internal
state is not consulted (spec section 4.4). -/
noncomputable def Beam.update_mpi (p : BeamParams) (_sol : SolverInternalState)
    (t _zmin : ℝ) (zgrid : ℕ → ℝ) : ℕ → ℝ :=
  fun kIdx => p.beta * cLightR * beamLineDensity p t (zgrid kIdx)

/- ===== Spec-modelled indexed field access (field.py) ===== -/

/-- Errors reported by indexed field-component access. -/
inductive FieldAccessErr where
  | outOfRange
  | unknownComponent
deriving DecidableEq

/-- A stored field array with its grid extents and one scalar function per
component. -/
structure FieldArr where
  Nx : ℕ
  Ny : ℕ
  Nz : ℕ
  fx : ℕ → ℕ → ℕ → ℚ
  fy : ℕ → ℕ → ℕ → ℚ
  fz : ℕ → ℕ → ℕ → ℚ

/-- A small concrete field array used to exercise the access contract. -/
def sampleField : FieldArr :=
  ⟨2, 2, 2, fun _ _ _ => 0, fun _ _ _ => 0, fun _ _ _ => 0⟩

/-- Whether an integer coordinate triple lies inside the index range of the
array. -/
def FieldArr.inRange (f : FieldArr) (i j k : ℤ) : Prop :=
  0 ≤ i ∧ i < f.Nx ∧ 0 ≤ j ∧ j < f.Ny ∧ 0 ≤ k ∧ k < f.Nz

instance (f : FieldArr) (i j k : ℤ) : Decidable (f.inRange i j k) := by
  unfold FieldArr.inRange
  infer_instance

/-- Modelled from the spec: field.py (dictionary-keyed component access
field[i,j,k,"z"]) is not under src/. Reading a scalar component: an
out-of-range coordinate or an unknown axis label is a reported error, never
a clamp or a silent value (spec sections 4.2 and 9). -/
def FieldArr.getComp (f : FieldArr) (i j k : ℤ) (comp : String) :
    Except FieldAccessErr ℚ :=
  if comp ≠ "x" ∧ comp ≠ "y" ∧ comp ≠ "z" then .error .unknownComponent
  else if ¬ f.inRange i j k then .error .outOfRange
  else if comp = "x" then .ok (f.fx i.toNat j.toNat k.toNat)
  else if comp = "y" then .ok (f.fy i.toNat j.toNat k.toNat)
  else .ok (f.fz i.toNat j.toNat k.toNat)

/-- Modelled from the spec: writing a scalar component, same error policy
as reading. -/
def FieldArr.setComp (f : FieldArr) (i j k : ℤ) (comp : String) (v : ℚ) :
    Except FieldAccessErr FieldArr :=
  if comp ≠ "x" ∧ comp ≠ "y" ∧ comp ≠ "z" then .error .unknownComponent
  else if ¬ f.inRange i j k then .error .outOfRange
  else if comp = "x" then
    .ok { f with fx := fun a b c =>
            if a = i.toNat ∧ b = j.toNat ∧ c = k.toNat then v else f.fx a b c }
  else if comp = "y" then
    .ok { f with fy := fun a b c =>
            if a = i.toNat ∧ b = j.toNat ∧ c = k.toNat then v else f.fy a b c }
  else
    .ok { f with fz := fun a b c =>
            if a = i.toNat ∧ b = j.toNat ∧ c = k.toNat then v else f.fz a b c }

/- ===================== Theorems ===================== -/

/-- Claim C1: for every step count n, over identical grid parameters, time
step and initial condition (a single Ez excitation at one cell), the FIT
solver with no embedded conductors (noConductor: zero conductor cut)
produces exactly the FDTD full-cell solver state after n one_step calls. -/
theorem fit_equals_fdtd_no_conductor (gp : GridParams) (c dt : ℚ)
    (i0 j0 k0 : ℕ) (a : ℚ) (n : ℕ) :
    stepN (fitCoeffs gp noConductor noConductor) c dt n (singleEzInit i0 j0 k0 a) =
    stepN (fdtdCoeffs gp) c dt n (singleEzInit i0 j0 k0 a) := by
  have h : fitCoeffs gp noConductor noConductor = fdtdCoeffs gp := by
    unfold fitCoeffs fdtdCoeffs noConductor
    congr 1 <;> funext i j k <;> exact one_mul _
  rw [h]

/-- Claim C4: the ghost-layer exchange operation is absent from the body of
the MPI time-stepping loop: it occurs in no iteration body, hence nowhere
in the concatenated trace of any number of iterations. -/
theorem ghost_exchange_absent (dt : ℚ) (numIter : ℕ) :
    (∀ n : ℕ, MpiLoopOp.ghostExchange ∉ mpiLoopBody dt n) ∧
    MpiLoopOp.ghostExchange ∉ (List.range numIter).flatMap (mpiLoopBody dt) := by
  constructor
  · intro n h
    simp [mpiLoopBody] at h
  · intro h
    rw [List.mem_flatMap] at h
    obtain ⟨n, _, hn⟩ := h
    simp [mpiLoopBody] at hn

/-- Claim C5: the step count Nt of the MPI script is a Python float (its
outermost operation is true division), so range(Nt) raises TypeError and
the time loop contributes no operation at all. -/
theorem mpi_step_count_float_type_error (dtP wl ti v zmaxv zminv : PyNum)
    (dt : ℚ) (hdt : dtP.toQ ≠ 0) (hv : v.toQ ≠ 0) :
    (ntExpr dtP wl ti v zmaxv zminv).map PyNum.isFloat = .ok true ∧
    mpiTimeLoopOps dtP wl ti v zmaxv zminv dt = .error .typeError := by
  have e1 : pyTrueDiv (.int 1) dtP = .ok (.float ((PyNum.int 1).toQ / dtP.toQ)) := by
    unfold pyTrueDiv
    rw [if_neg hdt]
  obtain ⟨q, hq⟩ : ∃ r : ℚ, ntExpr dtP wl ti v zmaxv zminv = .ok (.float r) := by
    refine ⟨(pyMul (.float ((PyNum.int 1).toQ / dtP.toQ))
      (pyAdd (pyAdd wl (pyMul ti v)) (pySub zmaxv zminv))).toQ / v.toQ, ?_⟩
    unfold ntExpr
    rw [e1]
    show pyTrueDiv (pyMul (.float ((PyNum.int 1).toQ / dtP.toQ))
      (pyAdd (pyAdd wl (pyMul ti v)) (pySub zmaxv zminv))) v = _
    unfold pyTrueDiv
    rw [if_neg hv]
  constructor
  · rw [hq]
    rfl
  · unfold mpiTimeLoopOps
    rw [hq]
    rfl

/-- Witness for claim C5 at concrete float attribute values. -/
theorem mpi_step_count_float_type_error_witness :
    (PyNum.float 1).toQ ≠ 0 ∧ (PyNum.float 2).toQ ≠ 0 ∧
    ((ntExpr (.float 1) (.int 10) (.float 1) (.float 2) (.int 3) (.int 0)).map
        PyNum.isFloat = .ok true ∧
      mpiTimeLoopOps (.float 1) (.int 10) (.float 1) (.float 2) (.int 3) (.int 0) 1 =
        .error .typeError) :=
  ⟨by norm_num [PyNum.toQ], by norm_num [PyNum.toQ],
    mpi_step_count_float_type_error (.float 1) (.int 10) (.float 1) (.float 2)
      (.int 3) (.int 0) 1 (by norm_num [PyNum.toQ]) (by norm_num [PyNum.toQ])⟩

/-- Claim C6: after the overwrite in script_cube_cav_fit.py, every entry of
the FDTD comparison grid face areas equals the nominal uncut cell face
area: Sxy = dx*dy, Szx = dx*dz and Syz = dz*dy, for all indices and
whatever areas the grid was first built with. -/
theorem fdtd_face_areas_nominal (S0xy S0zx S0yz : ℕ → ℕ → ℕ → ℚ) (i j k : ℕ) :
    gridFDTD_Sxy S0xy i j k = cubeDx * cubeDy ∧
    gridFDTD_Szx S0zx i j k = cubeDx * cubeDz ∧
    gridFDTD_Syz S0yz i j k = cubeDz * cubeDy := by
  refine ⟨?_, ?_, ?_⟩ <;>
    simp [gridFDTD_Sxy, gridFDTD_Szx, gridFDTD_Syz, onesLike]

/-- Claim C7: the tilde grid handed to the FIT solver at construction has
the same cell counts and the same conductor assembly as the primary grid,
and every bounding coordinate of every axis is shifted by exactly half a
cell (+dx/2, +dy/2, +dz/2 on both the min and the max bound). -/
theorem tilde_grid_half_cell_shift :
    noebSolverArgs.tgrid.xmin = noebSolverArgs.grid.xmin + cubeDx / 2 ∧
    noebSolverArgs.tgrid.xmax = noebSolverArgs.grid.xmax + cubeDx / 2 ∧
    noebSolverArgs.tgrid.ymin = noebSolverArgs.grid.ymin + cubeDy / 2 ∧
    noebSolverArgs.tgrid.ymax = noebSolverArgs.grid.ymax + cubeDy / 2 ∧
    noebSolverArgs.tgrid.zmin = noebSolverArgs.grid.zmin + cubeDz / 2 ∧
    noebSolverArgs.tgrid.zmax = noebSolverArgs.grid.zmax + cubeDz / 2 ∧
    noebSolverArgs.tgrid.Nx = noebSolverArgs.grid.Nx ∧
    noebSolverArgs.tgrid.Ny = noebSolverArgs.grid.Ny ∧
    noebSolverArgs.tgrid.Nz = noebSolverArgs.grid.Nz ∧
    noebSolverArgs.tgrid.conductor = noebSolverArgs.grid.conductor ∧
    noebSolverArgs.tgrid.solType = noebSolverArgs.grid.solType :=
  ⟨rfl, rfl, rfl, rfl, rfl, rfl, rfl, rfl, rfl, rfl, rfl⟩

/-- Claim C10: with a single MPI process the domain setup evaluates
Nz % (size-1) with size-1 = 0 and raises ZeroDivisionError before any grid
arguments are produced; with at least two processes the setup succeeds. -/
theorem mpi_single_process_zero_division :
    (∀ xmin xmax ymin ymax zmin zmax : ℚ, ∀ rank : ℕ,
      mpiDomainSetup xmin xmax ymin ymax zmin zmax 1 rank =
        .error .zeroDivisionError) ∧
    (∀ xmin xmax ymin ymax zmin zmax : ℚ, ∀ size rank : ℕ, 2 ≤ size →
      ∃ g, mpiDomainSetup xmin xmax ymin ymax zmin zmax size rank = .ok g) := by
  constructor
  · intro xmin xmax ymin ymax zmin zmax rank
    rfl
  · intro xmin xmax ymin ymax zmin zmax size rank hsize
    have hne : size - 1 ≠ 0 := by omega
    by_cases hr : rank = 0
    · subst hr
      exact ⟨_, by
        unfold mpiDomainSetup pyMod pyFloorDiv
        simp only [if_neg hne]
        rfl⟩
    · exact ⟨_, by
        unfold mpiDomainSetup pyMod pyFloorDiv
        simp only [if_neg hne, if_neg hr]
        rfl⟩

/-- Witness for claim C10 at size 2, rank 0 on a unit box. -/
theorem mpi_single_process_zero_division_witness :
    2 ≤ 2 ∧ ∃ g, mpiDomainSetup 0 1 0 1 0 1 2 0 = .ok g :=
  ⟨by norm_num, mpi_single_process_zero_division.2 0 1 0 1 0 1 2 0 (by norm_num)⟩

/-- Claim C3 (the decomposition arithmetic evaluated at a failing input):
with 5 processes the adjusted Nz is 142 yet the four worker ranks carry
4 * 35 = 140 cells, and on the domain [-1, 1] the worker union starts at 0
(not zmin) and ends at 140/71 (not zmax); consecutive ranges are
nevertheless contiguous. -/
theorem mpi_decomposition_gap :
    mpiNzAdj 5 = 142 ∧
    mpiNzLoc 5 = 35 ∧
    4 * mpiNzLoc 5 ≠ mpiNzAdj 5 ∧
    mpiZminLoc (-1) 1 5 1 = 0 ∧
    mpiZminLoc (-1) 1 5 1 ≠ -1 ∧
    mpiZmaxLoc (-1) 1 5 4 = 140 / 71 ∧
    mpiZmaxLoc (-1) 1 5 4 ≠ 1 ∧
    (∀ r : ℕ, mpiZmaxLoc (-1) 1 5 r = mpiZminLoc (-1) 1 5 (r + 1)) := by
  refine ⟨by norm_num [mpiNzAdj, mpiNz],
    by norm_num [mpiNzLoc, mpiNzAdj, mpiNz],
    by norm_num [mpiNzLoc, mpiNzAdj, mpiNz],
    by norm_num [mpiZminLoc, mpiNzLoc, mpiNzAdj, mpiNz, mpiDz],
    by norm_num [mpiZminLoc, mpiNzLoc, mpiNzAdj, mpiNz, mpiDz],
    by norm_num [mpiZmaxLoc, mpiNzLoc, mpiNzAdj, mpiNz, mpiDz],
    by norm_num [mpiZmaxLoc, mpiNzLoc, mpiNzAdj, mpiNz, mpiDz], ?_⟩
  intro r
  unfold mpiZmaxLoc mpiZminLoc
  push_cast
  ring

/-- Helper: closed form of the Hx array of the cube scenario after one
step. -/
theorem cubeAfter_Hx (c dt a : ℚ) (i j k : ℕ) :
    (cubeAfter c dt a).Hx i j k =
      if i = 12 ∧ j = 11 ∧ k = 12 then -(25 * c * dt * a)
      else if i = 12 ∧ j = 12 ∧ k = 12 then 25 * c * dt * a
      else 0 := by
  show stepHx cubeCoeffs c dt (singleEzInit 12 12 12 a) i j k = _
  simp only [stepHx, cubeCoeffs, fitCoeffs, cubeGP, noConductor, singleEzInit,
    cubeDx, cubeDy, cubeDz]
  by_cases h1 : i = 12 ∧ j = 11 ∧ k = 12
  · obtain ⟨hi, hj, hk⟩ := h1
    subst hi
    subst hj
    subst hk
    norm_num
    ring
  · by_cases h2 : i = 12 ∧ j = 12 ∧ k = 12
    · obtain ⟨hi, hj, hk⟩ := h2
      subst hi
      subst hj
      subst hk
      norm_num
      ring
    · have h3 : ¬ (i = 12 ∧ j + 1 = 12 ∧ k = 12) := by
        rintro ⟨hi, hj, hk⟩
        exact h1 ⟨hi, by omega, hk⟩
      rw [if_neg h3, if_neg h2, if_neg h1, if_neg h2]
      norm_num

/-- Helper: closed form of the Hy array of the cube scenario after one
step. -/
theorem cubeAfter_Hy (c dt a : ℚ) (i j k : ℕ) :
    (cubeAfter c dt a).Hy i j k =
      if i = 11 ∧ j = 12 ∧ k = 12 then 25 * c * dt * a
      else if i = 12 ∧ j = 12 ∧ k = 12 then -(25 * c * dt * a)
      else 0 := by
  show stepHy cubeCoeffs c dt (singleEzInit 12 12 12 a) i j k = _
  simp only [stepHy, cubeCoeffs, fitCoeffs, cubeGP, noConductor, singleEzInit,
    cubeDx, cubeDy, cubeDz]
  by_cases h1 : i = 11 ∧ j = 12 ∧ k = 12
  · obtain ⟨hi, hj, hk⟩ := h1
    subst hi
    subst hj
    subst hk
    norm_num
    ring
  · by_cases h2 : i = 12 ∧ j = 12 ∧ k = 12
    · obtain ⟨hi, hj, hk⟩ := h2
      subst hi
      subst hj
      subst hk
      norm_num
      ring
    · have h3 : ¬ (i + 1 = 12 ∧ j = 12 ∧ k = 12) := by
        rintro ⟨hi, hj, hk⟩
        exact h1 ⟨by omega, hj, hk⟩
      rw [if_neg h2, if_neg h3, if_neg h1, if_neg h2]
      norm_num

/-- Helper: the Hz array of the cube scenario stays identically zero after
one step (the xy-face curl reads only Ex and Ey, which are zero). -/
theorem cubeAfter_Hz (c dt a : ℚ) (i j k : ℕ) :
    (cubeAfter c dt a).Hz i j k = 0 := by
  show stepHz cubeCoeffs c dt (singleEzInit 12 12 12 a) i j k = 0
  simp [stepHz, cubeCoeffs, fitCoeffs, cubeGP, noConductor, singleEzInit]

/-- Helper: the values of the four nonzero H entries of the cube scenario. -/
theorem cubeHcomp_values (c dt a : ℚ) :
    cubeHcomp c dt a (.hx 12 11 12) = -(25 * c * dt * a) ∧
    cubeHcomp c dt a (.hx 12 12 12) = 25 * c * dt * a ∧
    cubeHcomp c dt a (.hy 11 12 12) = 25 * c * dt * a ∧
    cubeHcomp c dt a (.hy 12 12 12) = -(25 * c * dt * a) := by
  refine ⟨?_, ?_, ?_, ?_⟩ <;>
    simp [cubeHcomp, cubeAfter_Hx, cubeAfter_Hy]

/-- Helper: any face carrying a nonzero H entry after one step of the cube
scenario is one of the four faces adjacent to the excited edge. -/
theorem cubeHcomp_support (c dt a : ℚ) (p : FaceIx)
    (h : cubeHcomp c dt a p ≠ 0) : p ∈ cubeFourFaces := by
  cases p with
  | hx i j k =>
    rw [show cubeHcomp c dt a (.hx i j k) = (cubeAfter c dt a).Hx i j k from rfl,
      cubeAfter_Hx] at h
    by_cases h1 : i = 12 ∧ j = 11 ∧ k = 12
    · obtain ⟨hi, hj, hk⟩ := h1
      subst hi
      subst hj
      subst hk
      decide
    · by_cases h2 : i = 12 ∧ j = 12 ∧ k = 12
      · obtain ⟨hi, hj, hk⟩ := h2
        subst hi
        subst hj
        subst hk
        decide
      · rw [if_neg h1, if_neg h2] at h
        exact absurd rfl h
  | hy i j k =>
    rw [show cubeHcomp c dt a (.hy i j k) = (cubeAfter c dt a).Hy i j k from rfl,
      cubeAfter_Hy] at h
    by_cases h1 : i = 11 ∧ j = 12 ∧ k = 12
    · obtain ⟨hi, hj, hk⟩ := h1
      subst hi
      subst hj
      subst hk
      decide
    · by_cases h2 : i = 12 ∧ j = 12 ∧ k = 12
      · obtain ⟨hi, hj, hk⟩ := h2
        subst hi
        subst hj
        subst hk
        decide
      · rw [if_neg h1, if_neg h2] at h
        exact absurd rfl h
  | hz i j k =>
    rw [show cubeHcomp c dt a (.hz i j k) = (cubeAfter c dt a).Hz i j k from rfl,
      cubeAfter_Hz] at h
    exact absurd rfl h

/-- Claim C2 is false on the modelled solver: after one step exactly four
faces carry a nonzero H entry, so no set of six faces can realize the
claimed pattern; instantiated at c = dt = a = 1. -/
theorem cube_six_faces_false : ¬ cubeSixFacesClaim 1 1 1 := by
  rintro ⟨S, hcard, hmag, _⟩
  have hsub : S ⊆ cubeFourFaces := by
    intro p hp
    refine cubeHcomp_support 1 1 1 p ?_
    intro h0
    have hm := hmag p hp
    rw [h0] at hm
    norm_num [cubeDx] at hm
  have h4 : cubeFourFaces.card = 4 := by decide
  have hle := Finset.card_le_card hsub
  rw [h4, hcard] at hle
  omega

/-- Claim C2 (amended): in the 25-cube scenario with an Ez excitation of
value a > 0 at the center cell (12,12,12), one step produces a nonzero H
entry exactly at the four faces adjacent to the excited edge (the two yz
faces at (12,11,12) and (12,12,12) and the two zx faces at (11,12,12) and
(12,12,12)), each of magnitude (c * dt / cell size) * a, and H is zero at
every other face, including every xy face. -/
theorem cube_one_step_four_faces (c dt a : ℚ)
    (hc : 0 < c) (hdt : 0 < dt) (ha : 0 < a) :
    (∀ p ∈ cubeFourFaces, |cubeHcomp c dt a p| = c * dt / cubeDx * a) ∧
    (∀ p, p ∉ cubeFourFaces → cubeHcomp c dt a p = 0) := by
  have hval := cubeHcomp_values c dt a
  have hm : c * dt / cubeDx * a = 25 * c * dt * a := by
    rw [cubeDx]
    ring
  have habs : |(25 : ℚ) * c * dt * a| = 25 * c * dt * a := by
    rw [abs_of_pos]
    positivity
  constructor
  · intro p hp
    fin_cases hp
    · rw [hval.1, abs_neg, habs, hm]
    · rw [hval.2.1, habs, hm]
    · rw [hval.2.2.1, habs, hm]
    · rw [hval.2.2.2, abs_neg, habs, hm]
  · intro p hp
    by_contra hne
    exact hp (cubeHcomp_support c dt a p hne)

/-- Witness for claim C2 (amended) at c = dt = a = 1. -/
theorem cube_one_step_four_faces_witness :
    (0 : ℚ) < 1 ∧ (0 : ℚ) < 1 ∧ (0 : ℚ) < 1 ∧
    ((∀ p ∈ cubeFourFaces, |cubeHcomp 1 1 1 p| = 1 * 1 / cubeDx * 1) ∧
     (∀ p, p ∉ cubeFourFaces → cubeHcomp 1 1 1 p = 0)) :=
  ⟨by norm_num, by norm_num, by norm_num,
    cube_one_step_four_faces 1 1 1 (by norm_num) (by norm_num) (by norm_num)⟩

/-- Claim C8: in every iteration n of the MPI time loop the beam source
injection, carrying the explicit time argument n * dt, precedes the
one_step call, and the modelled injected current is a function of that
time argument and the beam constructor parameters alone: it is invariant
under any change of the solver-internal step counter or elapsed time. -/
theorem beam_update_order_and_stateless (dt : ℚ) (n : ℕ) (p : BeamParams)
    (s1 s2 : SolverInternalState) (t zmin : ℝ) (zgrid : ℕ → ℝ) :
    (∃ iB iS : ℕ, iB < iS ∧
      (mpiLoopBody dt n)[iB]? = some (MpiLoopOp.beamUpdateMpi ((n : ℚ) * dt)) ∧
      (mpiLoopBody dt n)[iS]? = some MpiLoopOp.oneStep) ∧
    Beam.update_mpi p s1 t zmin zgrid = Beam.update_mpi p s2 t zmin zgrid :=
  ⟨⟨0, 1, Nat.zero_lt_one, rfl, rfl⟩, rfl⟩

/-- Claim C9: reading or writing a single scalar field component at an
out-of-range coordinate or with an unknown axis label is a reported error;
the access never clamps the coordinate and never silently returns a value. -/
theorem field_access_reports_errors (f : FieldArr) (i j k : ℤ)
    (comp : String) (v : ℚ)
    (h : ¬ f.inRange i j k ∨ (comp ≠ "x" ∧ comp ≠ "y" ∧ comp ≠ "z")) :
    (∃ e, f.getComp i j k comp = .error e) ∧
    (∀ q, f.getComp i j k comp ≠ .ok q) ∧
    (∃ e, f.setComp i j k comp v = .error e) := by
  have hget : ∃ e, f.getComp i j k comp = .error e := by
    unfold FieldArr.getComp
    by_cases hc : comp ≠ "x" ∧ comp ≠ "y" ∧ comp ≠ "z"
    · exact ⟨_, by rw [if_pos hc]⟩
    · rcases h with h | h
      · exact ⟨_, by rw [if_neg hc, if_pos h]⟩
      · exact absurd h hc
  have hset : ∃ e, f.setComp i j k comp v = .error e := by
    unfold FieldArr.setComp
    by_cases hc : comp ≠ "x" ∧ comp ≠ "y" ∧ comp ≠ "z"
    · exact ⟨_, by rw [if_pos hc]⟩
    · rcases h with h | h
      · exact ⟨_, by rw [if_neg hc, if_pos h]⟩
      · exact absurd h hc
  refine ⟨hget, ?_, hset⟩
  obtain ⟨e, he⟩ := hget
  intro q hq
  rw [he] at hq
  exact Except.noConfusion hq

/-- Witness for claim C9: an out-of-range read and write on a concrete
2x2x2 field array. -/
theorem field_access_reports_errors_witness :
    (¬ sampleField.inRange 5 0 0 ∨
      ("x" ≠ "x" ∧ "x" ≠ "y" ∧ "x" ≠ "z")) ∧
    ((∃ e, sampleField.getComp 5 0 0 "x" = .error e) ∧
     (∀ q, sampleField.getComp 5 0 0 "x" ≠ .ok q) ∧
     (∃ e, sampleField.setComp 5 0 0 "x" 0 = .error e)) :=
  ⟨Or.inl (by decide),
    field_access_reports_errors sampleField 5 0 0 "x" 0 (Or.inl (by decide))⟩

